import Mathlib

/-!
Shallow embedding of the hybrid-encryption backend (routes/encryption.js,
models/EncryptedImage.js) and proofs about its pipeline behaviour.

Modelling conventions, used throughout:
* The external process runner (Node `child_process.exec`) is an oracle: an
  `ExecOutcome` describes what the one spawned process did, exactly as the
  route code observes it.
* `JSON.parse` of the child's stdout is only ever observed through a fixed
  set of fields, so a parsed payload is a `PyJson` record; stdout that does
  not parse to one payload is `Stdout.garbage`.
* JSON numbers are only copied around (never computed with), so they are
  modelled as `Int`.
* Wall-clock reads (`Date.now()`) are oracle data carried in each handler's
  environment record.
* Every externally visible action of a handler (spawning a process, deleting
  a file, saving a document, sending a response, streaming a download) is an
  `Effect`; a handler's meaning is its list of effects in program order.
-/

namespace HybridEnc

/-- Truthiness of an optional JS string: `!s` is true when the value is
absent (undefined) or the empty string. -/
def strFalsy (s : Option String) : Bool :=
  match s with
  | none => true
  | some v => v == ""

/-- JS `a || d` for an optional string field `a`: the default wins when the
field is absent or the empty string (both falsy). -/
def jsOrStr (a : Option String) (d : String) : String :=
  match a with
  | none => d
  | some v => if v == "" then d else v

/-- JS `a || 0` for an optional numeric field: absent gives 0, and `0 || 0`
is 0, so this is just the value with default 0. -/
def jsOrNum (a : Option Int) : Int := a.getD 0

/-- The structured payload a Python helper script prints on stdout, as far
as the route code ever reads it (routes/encryption.js): the fields accessed
are success, error, encrypted_path, decrypted_path, stego_path, entropy,
npcr, uaci, correlation, psnr, mse.  An absent field is `none`; `success`
is the truthiness of the success field (absent means falsy). -/
structure PyJson where
  success : Bool := false
  error : Option String := none
  encrypted_path : Option String := none
  decrypted_path : Option String := none
  stego_path : Option String := none
  entropy : Option (Int × Int) := none
  npcr : Option Int := none
  uaci : Option Int := none
  correlation : Option Int := none
  psnr : Option Int := none
  mse : Option Int := none
deriving DecidableEq, Repr

/-- The stdout channel of a completed child process, as observed through
`JSON.parse(stdout.trim())`: either it is exactly one structured payload,
or it is garbage (the raw text, kept for the error message). -/
inductive Stdout where
  | payload (j : PyJson)
  | garbage (raw : String)
deriving DecidableEq, Repr

/-- What `child_process.exec` reported for the one spawned process: either
an error (non-zero exit, kill on timeout, output overflow) together with
the stderr text and the error message, or completion with a stdout
channel. -/
inductive ExecOutcome where
  | err (stderr : String) (message : String)
  | ok (out : Stdout)
deriving DecidableEq, Repr

/-- The settled promise of `runPythonScript`. -/
inductive PyRunResult where
  | resolved (j : PyJson)
  | rejected (msg : String)
deriving DecidableEq, Repr

/-- The promise settlement logic of `runPythonScript`
(routes/encryption.js lines 22-49): on an exec error reject with
`stderr || error.message`; otherwise parse stdout and resolve with the
payload, rejecting with a parse message when stdout is not one payload. -/
def runPythonScript : ExecOutcome → PyRunResult
  | .err stderr message => .rejected (if stderr == "" then message else stderr)
  | .ok (.payload j) => .resolved j
  | .ok (.garbage raw) => .rejected ("Failed to parse: " ++ raw)

/-- One call to `child_process.exec`: the command line and the options the
source passes (routes/encryption.js lines 29-32). -/
structure ExecCall where
  command : String
  timeoutMs : Nat
  maxBufferBytes : Nat
deriving DecidableEq, Repr

/-- A shell argument as `runPythonScript` quotes it. -/
def quoteArg (a : String) : String := "\"" ++ a ++ "\""

/-- The command string `runPythonScript` builds:
the Python command, the quoted script path, then each quoted argument
joined by spaces. -/
def buildCommand (pythonCmd scriptPath : String) (args : List String) : String :=
  pythonCmd ++ " " ++ quoteArg scriptPath ++ " " ++
    String.intercalate " " (args.map quoteArg)

/-- The exec calls one invocation of `runPythonScript` performs: exactly one,
with a 30000 ms timeout and a 50 * 1024 * 1024 byte output cap, and no
retry. -/
def runPythonScriptCalls (pythonCmd scriptPath : String) (args : List String) :
    List ExecCall :=
  [⟨buildCommand pythonCmd scriptPath args, 30000, 50 * 1024 * 1024⟩]

/-- Splitting a character list at every occurrence of a separator. -/
def splitOnChar (sep : Char) : List Char → List (List Char)
  | [] => [[]]
  | c :: t =>
    match splitOnChar sep t with
    | [] => if c = sep then [[], []] else [[c]]
    | h :: r => if c = sep then [] :: h :: r else (c :: h) :: r

/-- Modelled Node `path.basename` (posix): the part after the last slash
(trailing-separator normalization omitted; no input here carries one). -/
def pathBasename (p : String) : String :=
  ⟨(splitOnChar '/' p.data).getLastD []⟩

/-- Modelled Node `path.extname`: the suffix of the base name from its last
dot, empty when there is no dot or the only dot is the leading one of a
hidden file. -/
def pathExtname (p : String) : String :=
  match splitOnChar '.' (pathBasename p).data with
  | [] => ""
  | [_] => ""
  | [[], _] => ""
  | segs => "." ++ ⟨segs.getLastD []⟩

/-- Modelled Node `path.basename(p, ext)`: the base name with the suffix
`ext` removed when it is a proper suffix. -/
def pathBasenameExt (p ext : String) : String :=
  let b := pathBasename p
  if ext != "" && ext.data.isSuffixOf b.data && b != ext then
    b.dropRight ext.length
  else b

/-- The decimal digit character for a value below ten (larger inputs are
never produced by `toDecAux`). -/
def digitChar (d : Nat) : Char :=
  "0123456789".data.getD d '9'

/-- Fuel-driven decimal rendering of a natural number, most significant
digit first; the fuel is always given as more than the number itself, so it
never runs out. -/
def toDecAux : Nat → Nat → List Char
  | 0, _ => []
  | fuel + 1, n =>
    if n < 10 then [digitChar n]
    else toDecAux fuel (n / 10) ++ [digitChar (n % 10)]

/-- Modelled JS number-to-string conversion for the integer values the
routes interpolate (`Date.now()` and `Math.round(Math.random() * 1E9)`):
plain decimal digits. -/
def natDec (n : Nat) : String := ⟨toDecAux (n + 1) n⟩

/-- Numeric value of a digit character. -/
def digitVal (c : Char) : Nat := c.toNat - 48

/-- The number a digit string denotes, most significant digit first. -/
def decVal (l : List Char) : Nat :=
  l.foldl (fun a c => 10 * a + digitVal c) 0

/-- Decimal digit test by character code. -/
def isDecDigit (c : Char) : Bool :=
  48 ≤ c.toNat && c.toNat ≤ 57

/-- The multer `destination` callback (routes/encryption.js lines 53-63):
`/tmp/uploads/original` on Render, the repository `uploads/original`
directory (relative to the routes directory) otherwise. -/
def uploadDestination (isRender : Bool) : String :=
  if isRender then "/tmp/uploads/original" else "../uploads/original"

/-- The multer `filename` callback (routes/encryption.js lines 64-67):
`Date.now() + '-' + Math.round(Math.random() * 1E9) + '-' +
file.originalname`, with the client-supplied original name embedded
verbatim. -/
def multerFilename (now rand : Nat) (originalname : String) : String :=
  natDec now ++ "-" ++ natDec rand ++ "-" ++ originalname

/-- The full staging path multer allocates: the configured destination
directory joined with the generated file name. -/
def multerPath (isRender : Bool) (now rand : Nat) (originalname : String) :
    String :=
  uploadDestination isRender ++ "/" ++ multerFilename now rand originalname

/-- A value in the metrics object a handler builds: a JSON number, or the
entropy object with original and encrypted components. -/
inductive MVal where
  | num (n : Int)
  | pair (orig enc : Int)
deriving DecidableEq, Repr

/-- The default metrics object literal both encrypting handlers start from
(routes/encryption.js lines 125-133 and 314-322): every field zero except
the already measured elapsed time. -/
def defaultMetricsObj (encryptionTime : Int) : List (String × MVal) :=
  [("encryptionTime", .num encryptionTime),
   ("entropy", .pair 0 0),
   ("NPCR", .num 0),
   ("UACI", .num 0),
   ("correlation", .num 0),
   ("PSNR", .num 0),
   ("MSE", .num 0)]

/-- The metrics object the `/encrypt` handler builds from a successful
metrics payload (routes/encryption.js lines 143-151): entropy, NPCR, UACI
and correlation from the payload with `|| 0` defaults, PSNR and MSE zero. -/
def encryptMetricsObj (encryptionTime : Int) (m : PyJson) :
    List (String × MVal) :=
  [("encryptionTime", .num encryptionTime),
   ("entropy", .pair (m.entropy.getD (0, 0)).1 (m.entropy.getD (0, 0)).2),
   ("NPCR", .num (jsOrNum m.npcr)),
   ("UACI", .num (jsOrNum m.uaci)),
   ("correlation", .num (jsOrNum m.correlation)),
   ("PSNR", .num 0),
   ("MSE", .num 0)]

/-- The metrics object the `/encrypt-stego` handler holds after a
successful metrics payload (routes/encryption.js lines 331-333): the
default object with its PSNR and MSE entries overwritten from the
payload. -/
def stegoMetricsObj (encryptionTime : Int) (m : PyJson) :
    List (String × MVal) :=
  [("encryptionTime", .num encryptionTime),
   ("entropy", .pair 0 0),
   ("NPCR", .num 0),
   ("UACI", .num 0),
   ("correlation", .num 0),
   ("PSNR", .num (jsOrNum m.psnr)),
   ("MSE", .num (jsOrNum m.mse))]

/-- Case-sensitive lookup of a key in a JS object modelled as a field
list. -/
def getField (o : List (String × MVal)) (k : String) : Option MVal :=
  (o.find? (fun p => p.1 == k)).map (fun p => p.2)

/-- Reading a declared numeric schema path from the handler's object:
Mongoose schemas are strict by default, key matching is case-sensitive,
and a declared path the object does not supply gets its schema default
(0 for every metrics number, models/EncryptedImage.js lines 52-75). -/
def schemaNum (o : List (String × MVal)) (k : String) : Int :=
  match getField o k with
  | some (.num n) => n
  | _ => 0

/-- Reading the declared `entropy` subdocument, defaulting both components
to 0 as the schema does. -/
def schemaPair (o : List (String × MVal)) (k : String) : Int × Int :=
  match getField o k with
  | some (.pair a b) => (a, b)
  | _ => (0, 0)

/-- The metrics subdocument as persisted: exactly the paths the schema
declares (models/EncryptedImage.js lines 52-75): encryptionTime,
entropy.original, entropy.encrypted, npcr, uaci. -/
structure PersistedMetrics where
  encryptionTime : Int
  entropy_original : Int
  entropy_encrypted : Int
  npcr : Int
  uaci : Int
deriving DecidableEq, Repr

/-- Applying the strict schema to the handler's metrics object: keys that
match no declared path (NPCR, UACI, correlation, PSNR, MSE, which differ
in case or are undeclared) are dropped; declared paths not supplied
(npcr, uaci) default to 0. -/
def applyMetricsSchema (o : List (String × MVal)) : PersistedMetrics :=
  { encryptionTime := schemaNum o "encryptionTime"
  , entropy_original := (schemaPair o "entropy").1
  , entropy_encrypted := (schemaPair o "entropy").2
  , npcr := schemaNum o "npcr"
  , uaci := schemaNum o "uaci" }

/-- An EncryptedImage document as the encrypting handlers persist it
(fields of models/EncryptedImage.js; `encryptedPath` is optional because
the handler stores the payload field, which may be absent). -/
structure EncRecord where
  originalName : String
  encryptedName : String
  encryptedPath : Option String
  originalPath : String
  size : Nat
  mimeType : String
  chaoticMap : String
  encryptionType : String
  status : String
  metrics : PersistedMetrics
deriving DecidableEq, Repr

/-- A JSON response body, restricted to the shapes the routes emit. -/
inductive RespBody where
  | err (error : String) (hint : Option String)
  | encSuccess (message : String) (name : String) (encryptionTime : Int)
      (metrics : List (String × MVal))
deriving DecidableEq, Repr

/-- An externally visible action of a route handler, in program order:
spawning a Python process, deleting a file, persisting a document, sending
a JSON response, or streaming a file download. -/
inductive Effect where
  | execPy (script : String) (args : List String)
  | unlink (path : String)
  | save (record : EncRecord)
  | respJson (status : Nat) (body : RespBody)
  | download (path : String) (filename : String)
deriving DecidableEq, Repr

/-- A staged upload as multer hands it to a handler. -/
structure UploadedFile where
  path : String
  originalname : String
  size : Nat
  mimetype : String
deriving DecidableEq, Repr

/-- A `/encrypt` request after multipart parsing: the optional single
upload and the optional body fields. -/
structure EncryptReq where
  file : Option UploadedFile
  key : Option String
  chaoticMap : Option String
deriving DecidableEq, Repr

/-- A `/encrypt-stego` request after multipart parsing. -/
structure StegoEncryptReq where
  secretImage : Option UploadedFile
  coverImage : Option UploadedFile
  key : Option String
  chaoticMap : Option String
deriving DecidableEq, Repr

/-- A `/decrypt` or `/decrypt-stego` request after multipart parsing. -/
structure DecryptReq where
  file : Option UploadedFile
  key : Option String
deriving DecidableEq, Repr

/-- The oracle data one run of an encrypting handler consumes: the two
child-process outcomes, the elapsed time `Date.now() - startTime` read
after the transformation, the `Date.now()` read for the output name, and
whether `save()` threw (with the thrown message). -/
structure EncryptEnv where
  encryptOutcome : ExecOutcome
  metricsOutcome : ExecOutcome
  elapsed : Nat
  timestamp : Nat
  saveErr : Option String
deriving DecidableEq, Repr

/-- The oracle data one run of a decrypting handler consumes: the
child-process outcome, whether the reported output file exists on disk,
and whether the download callback got an error. -/
structure DecryptEnv where
  outcome : ExecOutcome
  outputOnDisk : Bool
  downloadErr : Bool
deriving DecidableEq, Repr

/-- The result of running a decrypting handler: the effect trace, and
whether the staged input and the produced output still exist on disk once
the request (including the download callback) has fully completed. -/
structure DecOut where
  trace : List Effect
  inputExists : Bool
  outputExists : Bool
deriving DecidableEq, Repr

/-- The composed key validation both encrypting handlers run:
`!key || key.length < 8`. -/
def keyTooShort (k : Option String) : Bool :=
  strFalsy k || (k.getD "").length < 8

/-- Script path of python/encryption.py relative to the routes directory
(the `__dirname` prefix is deployment configuration and omitted). -/
def encryptionScript : String := "../python/encryption.py"

/-- Script path of python/metrics_analyzer.py relative to the routes
directory. -/
def metricsScript : String := "../python/metrics_analyzer.py"

/-- Script path of python/steganography.py relative to the routes
directory. -/
def stegoScript : String := "../python/steganography.py"

/-- The wrong-key hint string both decrypting handlers attach to a
reported transformation failure. -/
def hintMsg : String := "Make sure you are using the correct encryption key"

/-- The message of the TypeError Node `path.basename` throws when the
stego payload carries no path. -/
def pathTypeErrMsg : String :=
  "The \"path\" argument must be of type string. Received undefined"

/-- The output file name `/encrypt` derives from the original name and a
timestamp. -/
def encName (originalname : String) (timestamp : Nat) : String :=
  pathBasenameExt originalname (pathExtname originalname) ++
    "_encrypted_" ++ natDec timestamp ++ ".bin"

/-- The `/encrypt` handler (routes/encryption.js lines 79-193), as its
effect trace.  Branches in source order: missing upload, short key,
rejected encryption invocation (caught by the outer catch), payload
failure, then metrics (best effort), persistence and the success
response. -/
def postEncrypt (req : EncryptReq) (env : EncryptEnv) : List Effect :=
  match req.file with
  | none => [.respJson 400 (.err "No image file uploaded" none)]
  | some f =>
    if keyTooShort req.key then
      [.respJson 400 (.err "Key must be at least 8 characters" none)]
    else
      let key := req.key.getD ""
      let chaoticMap := req.chaoticMap.getD "logistic"
      let encryptedName := encName f.originalname env.timestamp
      let execEnc := Effect.execPy encryptionScript
        ["encrypt", f.path, key, chaoticMap]
      match runPythonScript env.encryptOutcome with
      | .rejected msg => [execEnc, .respJson 500 (.err msg none)]
      | .resolved enc =>
        if !enc.success then
          [execEnc, .respJson 500 (.err (jsOrStr enc.error "Encryption failed") none)]
        else
          let encryptionTime : Int := (env.elapsed : Int)
          let execMet := Effect.execPy metricsScript
            ["encryption", f.path, enc.encrypted_path.getD "undefined"]
          let calculated :=
            match runPythonScript env.metricsOutcome with
            | .resolved m =>
              if m.success then encryptMetricsObj encryptionTime m
              else defaultMetricsObj encryptionTime
            | .rejected _ => defaultMetricsObj encryptionTime
          let record : EncRecord :=
            { originalName := f.originalname
            , encryptedName := encryptedName
            , encryptedPath := enc.encrypted_path
            , originalPath := f.path
            , size := f.size
            , mimeType := f.mimetype
            , chaoticMap := chaoticMap
            , encryptionType := "basic"
            , status := "completed"
            , metrics := applyMetricsSchema calculated }
          match env.saveErr with
          | some msg => [execEnc, execMet, .respJson 500 (.err msg none)]
          | none =>
            [execEnc, execMet, .save record,
             .respJson 200 (.encSuccess "Image encrypted successfully"
               encryptedName encryptionTime calculated)]

/-- The `/encrypt-stego` handler (routes/encryption.js lines 268-373):
both upload slots checked before the key, the stego script invoked, the
payload path taken through `path.basename` (which throws into the outer
catch when the path is absent), then best-effort metrics, persistence and
the success response. -/
def postEncryptStego (req : StegoEncryptReq) (env : EncryptEnv) : List Effect :=
  match req.secretImage, req.coverImage with
  | some secret, some cover =>
    if keyTooShort req.key then
      [.respJson 400 (.err "Key must be at least 8 characters" none)]
    else
      let key := req.key.getD ""
      let chaoticMap := req.chaoticMap.getD "logistic"
      let execStego := Effect.execPy stegoScript
        ["encrypt", secret.path, cover.path, key, chaoticMap]
      match runPythonScript env.encryptOutcome with
      | .rejected msg => [execStego, .respJson 500 (.err msg none)]
      | .resolved r =>
        if !r.success then
          [execStego,
           .respJson 500 (.err (jsOrStr r.error "Steganography failed") none)]
        else
          match r.stego_path with
          | none => [execStego, .respJson 500 (.err pathTypeErrMsg none)]
          | some stegoPath =>
            let stegoName := pathBasename stegoPath
            let encryptionTime : Int := (env.elapsed : Int)
            let execMet := Effect.execPy metricsScript
              ["steganography", cover.path, stegoPath]
            let calculated :=
              match runPythonScript env.metricsOutcome with
              | .resolved m =>
                if m.success then stegoMetricsObj encryptionTime m
                else defaultMetricsObj encryptionTime
              | .rejected _ => defaultMetricsObj encryptionTime
            let record : EncRecord :=
              { originalName := secret.originalname
              , encryptedName := stegoName
              , encryptedPath := some stegoPath
              , originalPath := secret.path
              , size := secret.size
              , mimeType := secret.mimetype
              , chaoticMap := chaoticMap
              , encryptionType := "steganography"
              , status := "completed"
              , metrics := applyMetricsSchema calculated }
            match env.saveErr with
            | some msg => [execStego, execMet, .respJson 500 (.err msg none)]
            | none =>
              [execStego, execMet, .save record,
               .respJson 200 (.encSuccess "Triple-layer steganography successful"
                 stegoName encryptionTime calculated)]
  | _, _ => [.respJson 400 (.err "Both secret and cover images required" none)]

/-- The `/decrypt` handler (routes/encryption.js lines 196-265).  Cleanup
happens on exactly two paths: the reported-failure branch unlinks the
staged input before responding, and the download callback unlinks input
and output after the transfer (error or not).  A rejected invocation or a
missing output file falls to the outer catch, which cleans nothing. -/
def postDecrypt (req : DecryptReq) (env : DecryptEnv) : DecOut :=
  match req.file with
  | none => ⟨[.respJson 400 (.err "No file uploaded" none)], false, false⟩
  | some f =>
    if strFalsy req.key then
      ⟨[.respJson 400 (.err "Decryption key required" none)], true, false⟩
    else
      let key := req.key.getD ""
      let execDec := Effect.execPy encryptionScript ["decrypt", f.path, key]
      match runPythonScript env.outcome with
      | .rejected msg =>
        ⟨[execDec, .respJson 500 (.err msg none)], true, false⟩
      | .resolved r =>
        if !r.success then
          ⟨[execDec, .unlink f.path,
            .respJson 500 (.err (jsOrStr r.error "Decryption failed") (some hintMsg))],
           false, false⟩
        else
          match r.decrypted_path with
          | none =>
            ⟨[execDec, .respJson 500 (.err "Decrypted file not found" none)],
             true, false⟩
          | some dp =>
            if env.outputOnDisk then
              ⟨[execDec, .download dp "decrypted_image.png",
                .unlink f.path, .unlink dp], false, false⟩
            else
              ⟨[execDec, .respJson 500 (.err "Decrypted file not found" none)],
               true, false⟩

/-- The `/decrypt-stego` handler (routes/encryption.js lines 376-442),
structurally identical to `/decrypt` with its own messages, script and
download name. -/
def postDecryptStego (req : DecryptReq) (env : DecryptEnv) : DecOut :=
  match req.file with
  | none => ⟨[.respJson 400 (.err "No stego image uploaded" none)], false, false⟩
  | some f =>
    if strFalsy req.key then
      ⟨[.respJson 400 (.err "Decryption key required" none)], true, false⟩
    else
      let key := req.key.getD ""
      let execDec := Effect.execPy stegoScript ["decrypt", f.path, key]
      match runPythonScript env.outcome with
      | .rejected msg =>
        ⟨[execDec, .respJson 500 (.err msg none)], true, false⟩
      | .resolved r =>
        if !r.success then
          ⟨[execDec, .unlink f.path,
            .respJson 500 (.err (jsOrStr r.error "Extraction failed") (some hintMsg))],
           false, false⟩
        else
          match r.decrypted_path with
          | none =>
            ⟨[execDec, .respJson 500 (.err "Extracted file not found" none)],
             true, false⟩
          | some dp =>
            if env.outputOnDisk then
              ⟨[execDec, .download dp "extracted_secret.png",
                .unlink f.path, .unlink dp], false, false⟩
            else
              ⟨[execDec, .respJson 500 (.err "Extracted file not found" none)],
               true, false⟩

/-- A stored EncryptedImage document as the download routes read it. -/
structure StoredImage where
  encryptedPath : String
  encryptedName : String
  encryptionType : String
deriving DecidableEq, Repr

/-- The `/download-stego/:id` handler (routes/encryption.js lines 492-507),
given the result of the id lookup: 404 when absent, 400 when the record is
not a steganography record, otherwise the download. -/
def getDownloadStego (found : Option StoredImage) : List Effect :=
  match found with
  | none => [.respJson 404 (.err "Image not found" none)]
  | some img =>
    if img.encryptionType != "steganography" then
      [.respJson 400 (.err "Not a steganography image" none)]
    else
      [.download img.encryptedPath "stego_image.png"]

/-- Whether an effect spawns an external process. -/
def isExecEffect : Effect → Bool
  | .execPy _ _ => true
  | _ => false

/-- The number of external processes a trace spawns. -/
def execCount (t : List Effect) : Nat := (t.filter isExecEffect).length

/-- The documents a trace persists, in order. -/
def savedRecs : List Effect → List EncRecord
  | [] => []
  | .save r :: t => r :: savedRecs t
  | _ :: t => savedRecs t

/-- The number of documents a trace persists. -/
def countSaves (t : List Effect) : Nat := (savedRecs t).length

/-- Whether the given outcome resolves to a payload whose success field is
truthy. -/
def resolvedSuccess (o : ExecOutcome) : Bool :=
  match runPythonScript o with
  | .resolved j => j.success
  | .rejected _ => false

/-- Whether the given outcome resolves to a payload whose success field is
falsy (a reported failure, as opposed to a rejected invocation). -/
def resolvedFailure (o : ExecOutcome) : Bool :=
  match runPythonScript o with
  | .resolved j => !j.success
  | .rejected _ => false

/-- Whether the outcome resolves successfully and carries a stego path. -/
def resolvedStegoPath (o : ExecOutcome) : Bool :=
  match runPythonScript o with
  | .resolved j => j.stego_path.isSome
  | .rejected _ => false

/-- Validation success for `/encrypt`. -/
def encValid (req : EncryptReq) : Bool :=
  req.file.isSome && !keyTooShort req.key

/-- Validation success for `/encrypt-stego`. -/
def stegoValid (req : StegoEncryptReq) : Bool :=
  req.secretImage.isSome && req.coverImage.isSome && !keyTooShort req.key

/-- The exact condition under which `/encrypt` persists a document. -/
def encPersists (req : EncryptReq) (env : EncryptEnv) : Bool :=
  encValid req && resolvedSuccess env.encryptOutcome && env.saveErr.isNone

/-- The exact condition under which `/encrypt-stego` persists a document. -/
def stegoPersists (req : StegoEncryptReq) (env : EncryptEnv) : Bool :=
  stegoValid req && resolvedSuccess env.encryptOutcome &&
    resolvedStegoPath env.encryptOutcome && env.saveErr.isNone

/-- Every document a trace persists has status completed. -/
def allSavesCompleted (t : List Effect) : Bool :=
  t.all fun e =>
    match e with
    | .save r => r.status == "completed"
    | _ => true

/-- The persisted metrics of each document a trace saves. -/
def savedMetrics (t : List Effect) : List PersistedMetrics :=
  (savedRecs t).map (fun r => r.metrics)

/-- A concrete staged upload used by the concrete scenarios below. -/
def fileA : UploadedFile :=
  ⟨"/tmp/uploads/original/1000-9-photo.png", "photo.png", 10240, "image/png"⟩

/-- A concrete successful encryption payload. -/
def encPayloadOk : PyJson :=
  { success := true, encrypted_path := some "/tmp/enc.bin" }

/-- A concrete successful metrics payload carrying nonzero npcr and uaci. -/
def metricsPayloadOk : PyJson :=
  { success := true, entropy := some (7, 8), npcr := some 99, uaci := some 33,
    correlation := some 1 }

/-- The scenario request of the spec: a 10KB image, key abcdefgh, map
tent. -/
def encReqOk : EncryptReq := ⟨some fileA, some "abcdefgh", some "tent"⟩

/-- The environment in which both capabilities succeed and persistence
works. -/
def encEnvOk : EncryptEnv :=
  ⟨.ok (.payload encPayloadOk), .ok (.payload metricsPayloadOk), 42, 1234, none⟩

/-- The environment in which encryption succeeds but the metrics process
dies (its promise rejects). -/
def encEnvMetricsDown : EncryptEnv :=
  ⟨.ok (.payload encPayloadOk), .err "metrics exploded" "Command failed", 42, 1234, none⟩

/-- A concrete decrypt request with a staged upload and a valid key. -/
def decReqOk : DecryptReq := ⟨some fileA, some "abcdefgh"⟩

/-- A concrete decrypt request whose key field is missing. -/
def decReqNoKey : DecryptReq := ⟨some fileA, none⟩

/-- A concrete successful decryption payload. -/
def decPayloadOk : PyJson :=
  { success := true, decrypted_path := some "/tmp/dec.png" }

/-- The environment in which decryption succeeds and the output file is on
disk. -/
def decEnvOk : DecryptEnv := ⟨.ok (.payload decPayloadOk), true, false⟩

/-- The environment in which the decryption invocation itself rejects
(the process died with stderr text). -/
def decEnvRejected : DecryptEnv := ⟨.err "Traceback: boom" "Command failed", false, false⟩

/-- A concrete reported decryption failure (wrong key). -/
def decPayloadFail : PyJson := { success := false, error := some "Bad magic" }

/-- The environment in which decryption completes and reports failure. -/
def decEnvFail : DecryptEnv := ⟨.ok (.payload decPayloadFail), false, false⟩

/-- Whether a decrypting run reaches the download: the payload reports
success, carries an output path, and that file exists on disk. -/
def decOutputFound (env : DecryptEnv) : Bool :=
  match runPythonScript env.outcome with
  | .resolved j => j.success && j.decrypted_path.isSome && env.outputOnDisk
  | .rejected _ => false

end HybridEnc

namespace HybridEnc

/-- Unfolding String append to list append. -/
theorem data_append (a b : String) : (a ++ b).data = a.data ++ b.data := rfl

/-- The digit characters round-trip through their numeric value. -/
theorem digitVal_digitChar (d : Nat) (h : d < 10) :
    digitVal (digitChar d) = d := by
  interval_cases d <;> decide

/-- The digit characters are decimal digits. -/
theorem isDecDigit_digitChar (d : Nat) (h : d < 10) :
    isDecDigit (digitChar d) = true := by
  interval_cases d <;> decide

/-- Every character the decimal renderer emits is a decimal digit. -/
theorem toDecAux_digits :
    ∀ (fuel n : Nat), ∀ c ∈ toDecAux fuel n, isDecDigit c = true := by
  intro fuel
  induction fuel with
  | zero => intro n c hc; simp [toDecAux] at hc
  | succ fuel ih =>
    intro n c hc
    rw [toDecAux] at hc
    by_cases hn : n < 10
    · simp [hn] at hc
      subst hc
      exact isDecDigit_digitChar n hn
    · simp [hn] at hc
      rcases hc with hc | hc
      · exact ih _ c hc
      · subst hc
        exact isDecDigit_digitChar _ (Nat.mod_lt _ (by omega))

/-- Appending one digit multiplies the value by ten and adds the digit. -/
theorem decVal_append_one (l : List Char) (c : Char) :
    decVal (l ++ [c]) = 10 * decVal l + digitVal c := by
  simp [decVal, List.foldl_append]

/-- The decimal renderer is correct: its output denotes its input. -/
theorem decVal_toDecAux :
    ∀ (fuel n : Nat), n < fuel → decVal (toDecAux fuel n) = n := by
  intro fuel
  induction fuel with
  | zero => intro n h; omega
  | succ fuel ih =>
    intro n h
    rw [toDecAux]
    by_cases hn : n < 10
    · simp [hn, decVal, digitVal_digitChar n hn]
    · have hdiv : n / 10 < fuel := by omega
      simp only [hn, if_false, decVal_append_one, ih _ hdiv,
        digitVal_digitChar _ (Nat.mod_lt _ (by omega))]
      omega

/-- The decimal rendering of naturals is injective. -/
theorem natDec_inj {m n : Nat} (h : natDec m = natDec n) : m = n := by
  have hd : toDecAux (m + 1) m = toDecAux (n + 1) n := congrArg String.data h
  have := congrArg decVal hd
  rwa [decVal_toDecAux _ _ (Nat.lt_succ_self m),
    decVal_toDecAux _ _ (Nat.lt_succ_self n)] at this

/-- No character of a rendered natural is a hyphen. -/
theorem natDec_no_dash (n : Nat) : ∀ c ∈ (natDec n).data, c ≠ '-' := by
  intro c hc heq
  have := toDecAux_digits (n + 1) n c hc
  rw [heq] at this
  simp [isDecDigit] at this

/-- Splitting at a separator character that occurs in neither prefix is
unambiguous. -/
theorem append_sep_inj (sep : Char) :
    ∀ (a b x y : List Char), (∀ c ∈ a, c ≠ sep) → (∀ c ∈ b, c ≠ sep) →
      a ++ sep :: x = b ++ sep :: y → a = b ∧ x = y := by
  intro a
  induction a with
  | nil =>
    intro b x y _ hb h
    cases b with
    | nil => simpa using h
    | cons d tl =>
      simp at h
      exact absurd h.1.symm (hb d (by simp))
  | cons d tl ih =>
    intro b x y ha hb h
    cases b with
    | nil =>
      simp at h
      exact absurd h.1 (ha d (by simp))
    | cons e tlb =>
      simp at h
      obtain ⟨h1, h2⟩ := h
      obtain ⟨h3, h4⟩ := ih tlb x y (fun c hc => ha c (by simp [hc]))
        (fun c hc => hb c (by simp [hc])) h2
      exact ⟨by rw [h1, h3], h4⟩

/-- Staged file names collide only when the timestamp, the random suffix
and the original name all coincide. -/
theorem multerFilename_inj {n1 r1 n2 r2 : Nat} {s1 s2 : String}
    (h : multerFilename n1 r1 s1 = multerFilename n2 r2 s2) :
    n1 = n2 ∧ r1 = r2 ∧ s1 = s2 := by
  have hd := congrArg String.data h
  simp only [multerFilename, data_append, List.append_assoc] at hd
  have hd' : (natDec n1).data ++ '-' :: ((natDec r1).data ++ '-' :: s1.data) =
      (natDec n2).data ++ '-' :: ((natDec r2).data ++ '-' :: s2.data) := by
    simpa using hd
  obtain ⟨e1, e2⟩ := append_sep_inj '-' _ _ _ _ (natDec_no_dash n1) (natDec_no_dash n2) hd'
  obtain ⟨e3, e4⟩ := append_sep_inj '-' _ _ _ _ (natDec_no_dash r1) (natDec_no_dash r2) e2
  refine ⟨natDec_inj ?_, natDec_inj ?_, ?_⟩
  · cases hn1 : natDec n1; cases hn2 : natDec n2
    simp_all
  · cases hn1 : natDec r1; cases hn2 : natDec r2
    simp_all
  · cases s1; cases s2
    simp_all

/-- Applying the schema to the default metrics object keeps the elapsed
time and zeroes everything else. -/
theorem applyMetricsSchema_default (t : Int) :
    applyMetricsSchema (defaultMetricsObj t) =
      { encryptionTime := t, entropy_original := 0, entropy_encrypted := 0,
        npcr := 0, uaci := 0 } := by
  simp [applyMetricsSchema, schemaNum, schemaPair, getField, defaultMetricsObj,
    List.find?]

/-- Applying the schema to the populated encryption metrics object keeps
time and entropy but zeroes npcr and uaci: the object's NPCR and UACI keys
match no declared schema path. -/
theorem applyMetricsSchema_encrypt (t : Int) (m : PyJson) :
    applyMetricsSchema (encryptMetricsObj t m) =
      { encryptionTime := t, entropy_original := (m.entropy.getD (0, 0)).1,
        entropy_encrypted := (m.entropy.getD (0, 0)).2, npcr := 0, uaci := 0 } := by
  simp [applyMetricsSchema, schemaNum, schemaPair, getField, encryptMetricsObj,
    List.find?]

/-- Applying the schema to the populated steganography metrics object
keeps only the elapsed time: PSNR and MSE are not schema paths at all. -/
theorem applyMetricsSchema_stego (t : Int) (m : PyJson) :
    applyMetricsSchema (stegoMetricsObj t m) =
      { encryptionTime := t, entropy_original := 0, entropy_encrypted := 0,
        npcr := 0, uaci := 0 } := by
  simp [applyMetricsSchema, schemaNum, schemaPair, getField, stegoMetricsObj,
    List.find?]

/-- C4: the external capability invoker spawns exactly one process per
invocation (no retries), with a 30-second wall-clock deadline and a
50MB output cap; when the process fails with diagnostics on the side
channel it rejects with the stderr text verbatim (falling back to the
runtime error message only when stderr is empty); it resolves with the
parsed payload when the whole output channel is one structured payload and
rejects with a parse error otherwise. -/
theorem capability_invoker_contract :
    (∀ p s a, (runPythonScriptCalls p s a).length = 1) ∧
    (∀ p s a, ∀ c ∈ runPythonScriptCalls p s a,
      c.timeoutMs = 30 * 1000 ∧ c.maxBufferBytes = 50 * 1024 * 1024) ∧
    (∀ stderr message, stderr ≠ "" →
      runPythonScript (.err stderr message) = .rejected stderr) ∧
    (∀ message, runPythonScript (.err "" message) = .rejected message) ∧
    (∀ j, runPythonScript (.ok (.payload j)) = .resolved j) ∧
    (∀ raw, runPythonScript (.ok (.garbage raw)) =
      .rejected ("Failed to parse: " ++ raw)) := by
  refine ⟨fun p s a => rfl, fun p s a c hc => ?_, fun st m h => ?_,
    fun m => rfl, fun j => rfl, fun raw => rfl⟩
  · simp only [runPythonScriptCalls, List.mem_singleton] at hc
    subst hc
    exact ⟨rfl, rfl⟩
  · simp [runPythonScript, h]

/-- Witness for the invoker contract: a process that died printing a
traceback is rejected with exactly that stderr text. -/
theorem capability_invoker_contract_witness :
    ("Traceback: boom" : String) ≠ "" ∧
    runPythonScript (.err "Traceback: boom" "Command failed") =
      .rejected "Traceback: boom" :=
  ⟨by decide,
   capability_invoker_contract.2.2.1 "Traceback: boom" "Command failed" (by decide)⟩

/-- C9: a download-stego request for an existing record whose type is not
steganography gets the 400 Not-a-steganography-image error and streams
nothing; a download effect happens only for steganography records. -/
theorem download_stego_requires_steganography_type :
    (∀ img : StoredImage, img.encryptionType ≠ "steganography" →
      getDownloadStego (some img) =
        [Effect.respJson 400 (.err "Not a steganography image" none)]) ∧
    (∀ (found : Option StoredImage) (p n : String),
      Effect.download p n ∈ getDownloadStego found →
      ∃ img, found = some img ∧ img.encryptionType = "steganography" ∧
        p = img.encryptedPath ∧ n = "stego_image.png") := by
  constructor
  · intro img h
    simp [getDownloadStego, h]
  · intro found p n hmem
    cases found with
    | none => simp [getDownloadStego] at hmem
    | some img =>
      by_cases h : img.encryptionType = "steganography"
      · refine ⟨img, rfl, h, ?_⟩
        simp [getDownloadStego, h] at hmem
        exact ⟨hmem.1, hmem.2⟩
      · simp [getDownloadStego, h] at hmem

/-- Witness for the download-stego type guard at a concrete basic
record. -/
theorem download_stego_requires_steganography_type_witness :
    getDownloadStego (some ⟨"/tmp/enc.bin", "x.bin", "basic"⟩) =
      [Effect.respJson 400 (.err "Not a steganography image" none)] :=
  download_stego_requires_steganography_type.1
    ⟨"/tmp/enc.bin", "x.bin", "basic"⟩ (by decide)

/-- C10: every document any pipeline handler persists carries status
completed; the pending, processing and failed states the schema permits
are never written. -/
theorem persisted_records_always_completed :
    (∀ req env, allSavesCompleted (postEncrypt req env) = true) ∧
    (∀ req env, allSavesCompleted (postEncryptStego req env) = true) ∧
    (∀ req env, allSavesCompleted (postDecrypt req env).trace = true) ∧
    (∀ req env, allSavesCompleted (postDecryptStego req env).trace = true) ∧
    (∀ found, allSavesCompleted (getDownloadStego found) = true) := by
  refine ⟨fun req env => ?_, fun req env => ?_, fun req env => ?_,
    fun req env => ?_, fun found => ?_⟩
  · rcases req with ⟨file, key, cm⟩
    rcases file with _ | f
    · rfl
    · simp only [postEncrypt]
      repeat' split
      all_goals rfl
  · rcases req with ⟨sec, cov, key, cm⟩
    rcases sec with _ | s <;> rcases cov with _ | c
    · rfl
    · rfl
    · rfl
    · simp only [postEncryptStego]
      repeat' split
      all_goals rfl
  · rcases req with ⟨file, key⟩
    rcases file with _ | f
    · rfl
    · simp only [postDecrypt]
      repeat' split
      all_goals rfl
  · rcases req with ⟨file, key⟩
    rcases file with _ | f
    · rfl
    · simp only [postDecryptStego]
      repeat' split
      all_goals rfl
  · rcases found with _ | img
    · rfl
    · simp only [getDownloadStego]
      repeat' split
      all_goals rfl

/-- Unfolding lemma for the empty trace. -/
theorem savedRecs_nil : savedRecs [] = [] := rfl

/-- Unfolding lemma for a save effect. -/
theorem savedRecs_save (r : EncRecord) (t : List Effect) :
    savedRecs (.save r :: t) = r :: savedRecs t := rfl

/-- Unfolding lemma for an exec effect. -/
theorem savedRecs_execPy (s : String) (a : List String) (t : List Effect) :
    savedRecs (.execPy s a :: t) = savedRecs t := rfl

/-- Unfolding lemma for a response effect. -/
theorem savedRecs_respJson (c : Nat) (b : RespBody) (t : List Effect) :
    savedRecs (.respJson c b :: t) = savedRecs t := rfl

/-- Unfolding lemma for an unlink effect. -/
theorem savedRecs_unlink (p : String) (t : List Effect) :
    savedRecs (.unlink p :: t) = savedRecs t := rfl

/-- Unfolding lemma for a download effect. -/
theorem savedRecs_download (p n : String) (t : List Effect) :
    savedRecs (.download p n :: t) = savedRecs t := rfl

/-- C2: a validation failure (missing upload slot, or an absent or short
key) on an encrypting route answers 400 with a validation message and
spawns zero external processes. -/
theorem validation_failure_means_no_capability_invocation :
    (∀ req env, (req.file = none ∨ keyTooShort req.key = true) →
      execCount (postEncrypt req env) = 0 ∧
      ∃ msg, postEncrypt req env = [Effect.respJson 400 (.err msg none)]) ∧
    (∀ req env,
      (req.secretImage = none ∨ req.coverImage = none ∨ keyTooShort req.key = true) →
      execCount (postEncryptStego req env) = 0 ∧
      ∃ msg, postEncryptStego req env = [Effect.respJson 400 (.err msg none)]) := by
  constructor
  · intro req env h
    rcases req with ⟨file, key, cm⟩
    rcases file with _ | f
    · exact ⟨rfl, "No image file uploaded", rfl⟩
    · rcases h with h | h
      · exact absurd h (by simp)
      · simp only at h
        have hres : postEncrypt ⟨some f, key, cm⟩ env =
            [Effect.respJson 400 (.err "Key must be at least 8 characters" none)] := by
          simp [postEncrypt, h]
        exact ⟨by rw [hres]; rfl, _, hres⟩
  · intro req env h
    rcases req with ⟨sec, cov, key, cm⟩
    rcases sec with _ | s
    · exact ⟨rfl, "Both secret and cover images required", rfl⟩
    · rcases cov with _ | c
      · exact ⟨rfl, "Both secret and cover images required", rfl⟩
      · rcases h with h | h | h
        · exact absurd h (by simp)
        · exact absurd h (by simp)
        · simp only at h
          have hres : postEncryptStego ⟨some s, some c, key, cm⟩ env =
              [Effect.respJson 400 (.err "Key must be at least 8 characters" none)] := by
            simp [postEncryptStego, h]
          exact ⟨by rw [hres]; rfl, _, hres⟩

/-- Witness for the validation guard: a five-character key on `/encrypt`
answers 400 and spawns nothing. -/
theorem validation_failure_means_no_capability_invocation_witness :
    execCount (postEncrypt ⟨some fileA, some "short", some "tent"⟩ encEnvOk) = 0 ∧
    ∃ msg, postEncrypt ⟨some fileA, some "short", some "tent"⟩ encEnvOk =
      [Effect.respJson 400 (.err msg none)] :=
  validation_failure_means_no_capability_invocation.1
    ⟨some fileA, some "short", some "tent"⟩ encEnvOk (Or.inr (by decide))

/-- C3: when an encrypting transformation succeeds and the metrics
invocation fails (process error, timeout or malformed output all reject
its promise), the failure is swallowed: the handler still persists one
completed document and answers success, with every metric field at its
zero default except the measured elapsed transformation time. -/
theorem metrics_failure_swallowed_defaults_persisted :
    (∀ (f : UploadedFile) (key : String) (cm : Option String) (env : EncryptEnv)
      (j : PyJson) (failMsg : String),
      keyTooShort (some key) = false →
      runPythonScript env.encryptOutcome = .resolved j →
      j.success = true →
      runPythonScript env.metricsOutcome = .rejected failMsg →
      env.saveErr = none →
      postEncrypt ⟨some f, some key, cm⟩ env =
        [Effect.execPy encryptionScript ["encrypt", f.path, key, cm.getD "logistic"],
         Effect.execPy metricsScript
           ["encryption", f.path, j.encrypted_path.getD "undefined"],
         Effect.save
           { originalName := f.originalname
           , encryptedName := encName f.originalname env.timestamp
           , encryptedPath := j.encrypted_path
           , originalPath := f.path
           , size := f.size
           , mimeType := f.mimetype
           , chaoticMap := cm.getD "logistic"
           , encryptionType := "basic"
           , status := "completed"
           , metrics := { encryptionTime := (env.elapsed : Int), entropy_original := 0,
                          entropy_encrypted := 0, npcr := 0, uaci := 0 } },
         Effect.respJson 200 (.encSuccess "Image encrypted successfully"
           (encName f.originalname env.timestamp) (env.elapsed : Int)
           (defaultMetricsObj (env.elapsed : Int)))]) ∧
    (∀ (secret cover : UploadedFile) (key : String) (cm : Option String)
      (env : EncryptEnv) (j : PyJson) (sp : String) (failMsg : String),
      keyTooShort (some key) = false →
      runPythonScript env.encryptOutcome = .resolved j →
      j.success = true →
      j.stego_path = some sp →
      runPythonScript env.metricsOutcome = .rejected failMsg →
      env.saveErr = none →
      postEncryptStego ⟨some secret, some cover, some key, cm⟩ env =
        [Effect.execPy stegoScript
           ["encrypt", secret.path, cover.path, key, cm.getD "logistic"],
         Effect.execPy metricsScript ["steganography", cover.path, sp],
         Effect.save
           { originalName := secret.originalname
           , encryptedName := pathBasename sp
           , encryptedPath := some sp
           , originalPath := secret.path
           , size := secret.size
           , mimeType := secret.mimetype
           , chaoticMap := cm.getD "logistic"
           , encryptionType := "steganography"
           , status := "completed"
           , metrics := { encryptionTime := (env.elapsed : Int), entropy_original := 0,
                          entropy_encrypted := 0, npcr := 0, uaci := 0 } },
         Effect.respJson 200 (.encSuccess "Triple-layer steganography successful"
           (pathBasename sp) (env.elapsed : Int)
           (defaultMetricsObj (env.elapsed : Int)))]) := by
  constructor
  · intro f key cm env j failMsg hkey henc hsucc hmet hsave
    simp [postEncrypt, hkey, henc, hsucc, hmet, hsave, applyMetricsSchema_default]
  · intro secret cover key cm env j sp failMsg hkey henc hsucc hsp hmet hsave
    simp [postEncryptStego, hkey, henc, hsucc, hsp, hmet, hsave,
      applyMetricsSchema_default]

/-- Witness for the swallowed metrics failure: the scenario request with a
successful encryption and a dead metrics process. -/
theorem metrics_failure_swallowed_defaults_persisted_witness :
    postEncrypt ⟨some fileA, some "abcdefgh", some "tent"⟩ encEnvMetricsDown =
      [Effect.execPy encryptionScript
         ["encrypt", fileA.path, "abcdefgh", "tent"],
       Effect.execPy metricsScript ["encryption", fileA.path, "/tmp/enc.bin"],
       Effect.save
         { originalName := "photo.png"
         , encryptedName := encName "photo.png" 1234
         , encryptedPath := some "/tmp/enc.bin"
         , originalPath := fileA.path
         , size := 10240
         , mimeType := "image/png"
         , chaoticMap := "tent"
         , encryptionType := "basic"
         , status := "completed"
         , metrics := { encryptionTime := 42, entropy_original := 0,
                        entropy_encrypted := 0, npcr := 0, uaci := 0 } },
       Effect.respJson 200 (.encSuccess "Image encrypted successfully"
         (encName "photo.png" 1234) 42 (defaultMetricsObj 42))] :=
  metrics_failure_swallowed_defaults_persisted.1 fileA "abcdefgh" (some "tent")
    encEnvMetricsDown encPayloadOk "metrics exploded" (by decide) rfl rfl rfl rfl

/-- C1 counterexample: a decrypt request whose transformation succeeds
completes (streaming the artifact) with zero persisted records, so a
successful transformation does not imply a persisted record. -/
theorem decrypt_success_persists_no_record :
    resolvedSuccess decEnvOk.outcome = true ∧
    (postDecrypt decReqOk decEnvOk).trace =
      [Effect.execPy encryptionScript ["decrypt", fileA.path, "abcdefgh"],
       Effect.download "/tmp/dec.png" "decrypted_image.png",
       Effect.unlink fileA.path, Effect.unlink "/tmp/dec.png"] ∧
    countSaves (postDecrypt decReqOk decEnvOk).trace = 0 :=
  ⟨rfl, rfl, rfl⟩

/-- C1 (amended): a document is persisted only on the encrypting routes,
exactly when validation passed, the transformation payload reported
success (for stego also carried its output path) and the store accepted
the save — and then exactly one; the decrypting routes never persist. -/
theorem record_persisted_iff_transform_and_store_succeed :
    (∀ req env, countSaves (postEncrypt req env) = cond (encPersists req env) 1 0) ∧
    (∀ req env, countSaves (postEncryptStego req env) =
      cond (stegoPersists req env) 1 0) ∧
    (∀ req env, countSaves (postDecrypt req env).trace = 0) ∧
    (∀ req env, countSaves (postDecryptStego req env).trace = 0) := by
  refine ⟨fun req env => ?_, fun req env => ?_, fun req env => ?_, fun req env => ?_⟩
  · rcases req with ⟨file, key, cm⟩
    rcases file with _ | f
    · rfl
    · by_cases hk : keyTooShort key = true
      · simp [postEncrypt, encPersists, encValid, hk, countSaves, savedRecs_nil,
          savedRecs_respJson]
      · rw [Bool.not_eq_true] at hk
        rcases hrun : runPythonScript env.encryptOutcome with j | msg
        · cases hsucc : j.success
          · simp [postEncrypt, encPersists, encValid, resolvedSuccess, hk, hrun,
              hsucc, countSaves, savedRecs_nil, savedRecs_respJson, savedRecs_execPy]
          · rcases hsv : env.saveErr with _ | msg
            · simp [postEncrypt, encPersists, encValid, resolvedSuccess, hk, hrun,
                hsucc, hsv, countSaves, savedRecs_nil, savedRecs_respJson,
                savedRecs_execPy, savedRecs_save]
            · simp [postEncrypt, encPersists, encValid, resolvedSuccess, hk, hrun,
                hsucc, hsv, countSaves, savedRecs_nil, savedRecs_respJson,
                savedRecs_execPy]
        · simp [postEncrypt, encPersists, encValid, resolvedSuccess, hk, hrun,
            countSaves, savedRecs_nil, savedRecs_respJson, savedRecs_execPy]
  · rcases req with ⟨sec, cov, key, cm⟩
    rcases sec with _ | s
    · rfl
    · rcases cov with _ | c
      · rfl
      · by_cases hk : keyTooShort key = true
        · simp [postEncryptStego, stegoPersists, stegoValid, hk, countSaves,
            savedRecs_nil, savedRecs_respJson]
        · rw [Bool.not_eq_true] at hk
          rcases hrun : runPythonScript env.encryptOutcome with j | msg
          · cases hsucc : j.success
            · simp [postEncryptStego, stegoPersists, stegoValid, resolvedSuccess,
                resolvedStegoPath, hk, hrun, hsucc, countSaves, savedRecs_nil,
                savedRecs_respJson, savedRecs_execPy]
            · rcases hsp : j.stego_path with _ | sp
              · simp [postEncryptStego, stegoPersists, stegoValid, resolvedSuccess,
                  resolvedStegoPath, hk, hrun, hsucc, hsp, countSaves, savedRecs_nil,
                  savedRecs_respJson, savedRecs_execPy]
              · rcases hsv : env.saveErr with _ | msg
                · simp [postEncryptStego, stegoPersists, stegoValid, resolvedSuccess,
                    resolvedStegoPath, hk, hrun, hsucc, hsp, hsv, countSaves,
                    savedRecs_nil, savedRecs_respJson, savedRecs_execPy, savedRecs_save]
                · simp [postEncryptStego, stegoPersists, stegoValid, resolvedSuccess,
                    resolvedStegoPath, hk, hrun, hsucc, hsp, hsv, countSaves,
                    savedRecs_nil, savedRecs_respJson, savedRecs_execPy]
          · simp [postEncryptStego, stegoPersists, stegoValid, resolvedSuccess,
              resolvedStegoPath, hk, hrun, countSaves, savedRecs_nil,
              savedRecs_respJson, savedRecs_execPy]
  · rcases req with ⟨file, key⟩
    rcases file with _ | f
    · rfl
    · simp only [postDecrypt]
      repeat' split
      all_goals rfl
  · rcases req with ⟨file, key⟩
    rcases file with _ | f
    · rfl
    · simp only [postDecryptStego]
      repeat' split
      all_goals rfl

/-- C5 counterexample: a decrypt request with a staged upload and a
missing key fully completes its 400 response while the staged input is
still on disk. -/
theorem decrypt_missing_key_leaves_staged_input :
    (postDecrypt decReqNoKey decEnvOk).trace =
      [Effect.respJson 400 (.err "Decryption key required" none)] ∧
    (postDecrypt decReqNoKey decEnvOk).inputExists = true :=
  ⟨rfl, rfl⟩

/-- C5 (amended): after a decrypt or stego-decrypt response fully
completes, the produced output never remains, and the staged input is
released precisely when the transformation reported failure or the output
file was found and streamed; after a validation failure, a rejected
invocation, or a missing output file, the staged input remains on disk. -/
theorem decrypt_cleanup_characterization :
    (∀ (f : UploadedFile) (key : Option String) (env : DecryptEnv),
      (postDecrypt ⟨some f, key⟩ env).outputExists = false ∧
      (postDecrypt ⟨some f, key⟩ env).inputExists =
        (strFalsy key || (!resolvedFailure env.outcome && !decOutputFound env))) ∧
    (∀ (f : UploadedFile) (key : Option String) (env : DecryptEnv),
      (postDecryptStego ⟨some f, key⟩ env).outputExists = false ∧
      (postDecryptStego ⟨some f, key⟩ env).inputExists =
        (strFalsy key || (!resolvedFailure env.outcome && !decOutputFound env))) := by
  constructor
  · intro f key env
    by_cases hkey : strFalsy key = true
    · simp [postDecrypt, hkey]
    · rw [Bool.not_eq_true] at hkey
      rcases hrun : runPythonScript env.outcome with j | msg
      · cases hsucc : j.success
        · simp [postDecrypt, resolvedFailure, decOutputFound, hkey, hrun, hsucc]
        · rcases hdp : j.decrypted_path with _ | dp
          · simp [postDecrypt, resolvedFailure, decOutputFound, hkey, hrun, hsucc, hdp]
          · cases hod : env.outputOnDisk
            · simp [postDecrypt, resolvedFailure, decOutputFound, hkey, hrun, hsucc,
                hdp, hod]
            · simp [postDecrypt, resolvedFailure, decOutputFound, hkey, hrun, hsucc,
                hdp, hod]
      · simp [postDecrypt, resolvedFailure, decOutputFound, hkey, hrun]
  · intro f key env
    by_cases hkey : strFalsy key = true
    · simp [postDecryptStego, hkey]
    · rw [Bool.not_eq_true] at hkey
      rcases hrun : runPythonScript env.outcome with j | msg
      · cases hsucc : j.success
        · simp [postDecryptStego, resolvedFailure, decOutputFound, hkey, hrun, hsucc]
        · rcases hdp : j.decrypted_path with _ | dp
          · simp [postDecryptStego, resolvedFailure, decOutputFound, hkey, hrun,
              hsucc, hdp]
          · cases hod : env.outputOnDisk
            · simp [postDecryptStego, resolvedFailure, decOutputFound, hkey, hrun,
                hsucc, hdp, hod]
            · simp [postDecryptStego, resolvedFailure, decOutputFound, hkey, hrun,
                hsucc, hdp, hod]
      · simp [postDecryptStego, resolvedFailure, decOutputFound, hkey, hrun]

/-- C7 counterexample: a decrypt whose invocation rejects (the capability
process died) is a failed transformation, yet the 500 body carries no hint
and the staged input is not deleted. -/
theorem decrypt_rejection_no_hint_no_cleanup :
    postDecrypt decReqOk decEnvRejected =
      ⟨[Effect.execPy encryptionScript ["decrypt", fileA.path, "abcdefgh"],
        Effect.respJson 500 (.err "Traceback: boom" none)], true, false⟩ :=
  rfl

/-- C7 (amended): when a decrypt or stego-decrypt transformation completes
and reports failure, the staged input is unlinked before the 500 response,
whose body carries the error detail and the wrong-key hint; when the
invocation itself rejects, the handler answers 500 with the rejection
message only and does not delete the staged input. -/
theorem decrypt_reported_failure_cleans_input_and_hints :
    (∀ (f : UploadedFile) (key : Option String) (env : DecryptEnv) (j : PyJson),
      strFalsy key = false →
      runPythonScript env.outcome = .resolved j → j.success = false →
      postDecrypt ⟨some f, key⟩ env =
        ⟨[Effect.execPy encryptionScript ["decrypt", f.path, key.getD ""],
          Effect.unlink f.path,
          Effect.respJson 500
            (.err (jsOrStr j.error "Decryption failed") (some hintMsg))],
         false, false⟩) ∧
    (∀ (f : UploadedFile) (key : Option String) (env : DecryptEnv) (msg : String),
      strFalsy key = false →
      runPythonScript env.outcome = .rejected msg →
      postDecrypt ⟨some f, key⟩ env =
        ⟨[Effect.execPy encryptionScript ["decrypt", f.path, key.getD ""],
          Effect.respJson 500 (.err msg none)], true, false⟩) ∧
    (∀ (f : UploadedFile) (key : Option String) (env : DecryptEnv) (j : PyJson),
      strFalsy key = false →
      runPythonScript env.outcome = .resolved j → j.success = false →
      postDecryptStego ⟨some f, key⟩ env =
        ⟨[Effect.execPy stegoScript ["decrypt", f.path, key.getD ""],
          Effect.unlink f.path,
          Effect.respJson 500
            (.err (jsOrStr j.error "Extraction failed") (some hintMsg))],
         false, false⟩) ∧
    (∀ (f : UploadedFile) (key : Option String) (env : DecryptEnv) (msg : String),
      strFalsy key = false →
      runPythonScript env.outcome = .rejected msg →
      postDecryptStego ⟨some f, key⟩ env =
        ⟨[Effect.execPy stegoScript ["decrypt", f.path, key.getD ""],
          Effect.respJson 500 (.err msg none)], true, false⟩) := by
  refine ⟨fun f key env j hkey hrun hsucc => ?_, fun f key env msg hkey hrun => ?_,
    fun f key env j hkey hrun hsucc => ?_, fun f key env msg hkey hrun => ?_⟩
  · simp [postDecrypt, hkey, hrun, hsucc]
  · simp [postDecrypt, hkey, hrun]
  · simp [postDecryptStego, hkey, hrun, hsucc]
  · simp [postDecryptStego, hkey, hrun]

/-- Witness for the reported-failure branch: a wrong-key decrypt deletes
the staged input and answers 500 with the detail and the hint. -/
theorem decrypt_reported_failure_cleans_input_and_hints_witness :
    postDecrypt decReqOk decEnvFail =
      ⟨[Effect.execPy encryptionScript ["decrypt", fileA.path, "abcdefgh"],
        Effect.unlink fileA.path,
        Effect.respJson 500 (.err "Bad magic" (some hintMsg))], false, false⟩ :=
  decrypt_reported_failure_cleans_input_and_hints.1 fileA (some "abcdefgh")
    decEnvFail decPayloadFail rfl rfl rfl

/-- C6: at the spec's own scenario (10KB photo.png, key abcdefgh, map
tent, both capabilities succeed, metrics reporting npcr 99 and uaci 33),
the handler builds and reports NPCR 99 and UACI 33, but the persisted
document's npcr and uaci schema paths hold 0: the handler writes the keys
NPCR and UACI, which match no declared (case-sensitive) schema path, so
strict Mongoose drops them and the schema defaults are stored. -/
theorem npcr_uaci_dropped_by_schema :
    savedMetrics (postEncrypt encReqOk encEnvOk) =
      [{ encryptionTime := 42, entropy_original := 7, entropy_encrypted := 8,
         npcr := 0, uaci := 0 }] ∧
    metricsPayloadOk.npcr = some 99 ∧
    metricsPayloadOk.uaci = some 33 ∧
    getField (encryptMetricsObj 42 metricsPayloadOk) "NPCR" = some (.num 99) ∧
    getField (encryptMetricsObj 42 metricsPayloadOk) "UACI" = some (.num 33) ∧
    (postEncrypt encReqOk encEnvOk).getLast? =
      some (.respJson 200 (.encSuccess "Image encrypted successfully"
        (encName "photo.png" 1234) 42 (encryptMetricsObj 42 metricsPayloadOk))) :=
  ⟨rfl, rfl, rfl, rfl, rfl, rfl⟩

/-- C8 counterexample: the staged file name embeds the client-supplied
original name verbatim — here a path-traversal name, kept unsanitized,
separator characters included. -/
theorem filename_embeds_name_unsanitized :
    multerFilename 1000 9 "../../etc/passwd" = "1000-9-../../etc/passwd" ∧
    '/' ∈ (multerFilename 1000 9 "../../etc/passwd").data :=
  ⟨rfl, by decide⟩

/-- C8 (amended): the staged path is the configured destination (picked by
deployment environment) joined with a name made of the time component, the
random suffix and the verbatim original name; two staged file names
coincide only when timestamp, random suffix and original name all
coincide. -/
theorem staging_path_structure_and_injectivity :
    (∀ (isRender : Bool) (now rand : Nat) (name : String),
      multerPath isRender now rand name =
        uploadDestination isRender ++ "/" ++
          (natDec now ++ "-" ++ natDec rand ++ "-" ++ name)) ∧
    (∀ (n1 r1 : Nat) (s1 : String) (n2 r2 : Nat) (s2 : String),
      multerFilename n1 r1 s1 = multerFilename n2 r2 s2 →
      n1 = n2 ∧ r1 = r2 ∧ s1 = s2) :=
  ⟨fun _ _ _ _ => rfl, fun _ _ _ _ _ _ h => multerFilename_inj h⟩

/-- Witness for path injectivity, applied at concrete components. -/
theorem staging_path_structure_and_injectivity_witness :
    (1000 : Nat) = 1000 ∧ (9 : Nat) = 9 ∧ ("a.png" : String) = "a.png" :=
  staging_path_structure_and_injectivity.2 1000 9 "a.png" 1000 9 "a.png" rfl

end HybridEnc

